import Mathlib

/-!
Shallow embedding of the damper-thermostat plugin
(custom_components/damper_thermostat/climate.py).

Temperatures, setpoints and tolerances are modelled as rationals; entity
ids and switch states are the strings the code compares against.  The
host state registry is modelled as a function from entity id to an
optional state (None for a missing entity), and service invocations
(switch.turn_on / switch.turn_off) as an explicit command list, so that
ordering of commands and their effect on switch states can be reasoned
about.
-/

namespace DamperThermostat

/-- The switch state string compared against in _async_is_device_active. -/
def stOn : String := "on"

/-- The switch state string counted by _async_actuator_turn_off. -/
def stOff : String := "off"

/-- Status recorded by _async_get_actuator_switches_status for a missing entity. -/
def stUnavailable : String := "unavailable"

/-- HVAC modes used by climate.py (HVAC_MODES plus the fallback branch). -/
inductive HVACMode
  | off
  | heat
  | cool
  | auto
  | heatCool
  | fanOnly
  deriving DecidableEq, Repr

/-- HVAC actions read from the main thermostat attributes. -/
inductive HVACAction
  | off
  | heating
  | cooling
  | idle
  | preheating
  | fan
  deriving DecidableEq, Repr

/-- The state of a sensor entity as the aggregation code distinguishes it:
the unknown/unavailable marker strings, a string that fails float(), or a
parseable numeric reading. -/
inductive StateVal
  | unknown
  | unavailable
  | malformed
  | num (q : ℚ)

/-- Outcome of one decision-engine pass: which actuator service call the
code invokes (or no call at all). -/
inductive CtrlAction
  | turnOn
  | turnOff
  | noCmd
  deriving DecidableEq, Repr

/-- A switch service call issued through hass.services.async_call. -/
inductive Cmd
  | turnOn (entity : String)
  | turnOff (entity : String)
  deriving DecidableEq, Repr

/-! ## Sensor aggregation (_async_update_temp, _async_update_humidity) -/

/-- The list of readings collected by the loop in _async_update_temp:
sensors whose state is present, not unknown/unavailable, and parses as a
float contribute their value; everything else is skipped. -/
def validTemps (sensors : List String) (env : String → Option StateVal) : List ℚ :=
  sensors.filterMap fun sid =>
    match env sid with
    | none => none
    | some StateVal.unknown => none
    | some StateVal.unavailable => none
    | some StateVal.malformed => none
    | some (StateVal.num q) => some q

/-- _async_update_temp: set the cached temperature to the average of all
valid readings; when there is no valid reading, log and leave the old
value in place. -/
def updateTemp (sensors : List String) (env : String → Option StateVal)
    (old : Option ℚ) : Option ℚ :=
  let temperatures := validTemps sensors env
  if temperatures.isEmpty then old
  else some (temperatures.sum / (temperatures.length : ℚ))

/-- Python int() truncates toward zero. -/
def ratTrunc (q : ℚ) : ℤ :=
  if 0 ≤ q then ⌊q⌋ else ⌈q⌉

/-- _async_update_humidity: a valid numeric reading is stored as
int(float(value)); a missing entity, unknown/unavailable state or a
ValueError leaves the cached humidity unchanged. -/
def updateHumidity (state : Option StateVal) (old : Option ℤ) : Option ℤ :=
  match state with
  | none => old
  | some StateVal.unknown => old
  | some StateVal.unavailable => old
  | some StateVal.malformed => old
  | some (StateVal.num q) => some (ratTrunc q)

/-! ## Actuator group arbiter (_async_actuator_turn_off) -/

/-- _async_get_actuator_switches_status: the state string of a switch,
with a missing entity reported as "unavailable". -/
def statusOf (env : String → Option String) (sid : String) : String :=
  match env sid with
  | some st => st
  | none => stUnavailable

/-- Whether a switch counts as off for the ceiling check and the handoff scan. -/
def isOff (env : String → Option String) (sid : String) : Bool :=
  statusOf env sid == stOff

/-- current_off_count: how many group members report state "off". -/
def offCount (switches : List String) (env : String → Option String) : Nat :=
  switches.countP (isOff env)

/-- list.index: position of the first occurrence, None when absent
(the ValueError branch). -/
def indexIn (x : String) : List String → Option Nat
  | [] => none
  | y :: ys => if y = x then some 0 else (indexIn x ys).map (· + 1)

/-- _async_actuator_turn_off, as the list of switch service calls it
issues, in order.  Below the ceiling the requester is turned off
directly; at or above it, the first off member after the requester in
priority order is turned on first and then the requester is turned off;
with no such member (or the requester absent from the group list) no call
is made. -/
def actuatorTurnOffCmds (switches : List String) (own : String) (maxOff : Nat)
    (env : String → Option String) : List Cmd :=
  if offCount switches env < maxOff then [Cmd.turnOff own]
  else
    match indexIn own switches with
    | none => []
    | some i =>
      match (switches.drop (i + 1)).find? (isOff env) with
      | none => []
      | some lower => [Cmd.turnOn lower, Cmd.turnOff own]

/-- Effect of one switch service call on the host state registry. -/
def applyCmd (env : String → Option String) : Cmd → (String → Option String)
  | Cmd.turnOn e => fun sid => if sid = e then some stOn else env sid
  | Cmd.turnOff e => fun sid => if sid = e then some stOff else env sid

/-- Effect of a command list, applied in order. -/
def applyCmds (env : String → Option String) (cmds : List Cmd) : String → Option String :=
  cmds.foldl applyCmd env

/-- One plugin-issued turn-off request against the group: query the fresh
member states, run the arbiter, and let its commands take effect. -/
def turnOffStep (switches : List String) (maxOff : Nat)
    (env : String → Option String) (own : String) : String → Option String :=
  applyCmds env (actuatorTurnOffCmds switches own maxOff env)

/-- A sequence of turn-off requests (each naming the requesting actuator),
each executed on the state left by the previous one. -/
def runTurnOffRequests (switches : List String) (maxOff : Nat)
    (env : String → Option String) (reqs : List String) : String → Option String :=
  reqs.foldl (turnOffStep switches maxOff) env

/-! ## Decision engine -/

/-- _async_is_device_active: the actuator switch entity exists and its
state is "on". -/
def isDeviceActive (env : String → Option String) (own : String) : Bool :=
  match env own with
  | some st => st == stOn
  | none => false

/-- _async_control_based_on_temperature: bang-bang control with the
too_cold / too_hot comparisons of the source, returning which actuator
service the code invokes. -/
def controlBasedOnTemperature (mode : HVACMode) (target cur coldTol hotTol : ℚ)
    (deviceActive : Bool) : CtrlAction :=
  let tooCold : Prop := target ≥ cur + coldTol
  let tooHot : Prop := cur ≥ target + hotTol
  if deviceActive then
    if mode = HVACMode.heat ∧ ¬tooCold then CtrlAction.turnOff
    else if mode = HVACMode.cool ∧ ¬tooHot then CtrlAction.turnOff
    else if mode = HVACMode.auto ∧ ¬tooCold ∧ ¬tooHot then CtrlAction.turnOff
    else CtrlAction.noCmd
  else
    if mode = HVACMode.heat ∧ tooCold then CtrlAction.turnOn
    else if mode = HVACMode.cool ∧ tooHot then CtrlAction.turnOn
    else if mode = HVACMode.auto ∧ tooCold then CtrlAction.turnOn
    else if mode = HVACMode.auto ∧ tooHot then CtrlAction.turnOn
    else CtrlAction.noCmd

/-- _async_control_based_on_main_thermostat: the straight-line
should_deactivate / enough_cold / enough_heat computation of the source,
returning which actuator service the code invokes.  The lets mirror the
successive assignments (sd3 is the overwrite inside the AUTO/HEAT_COOL
branch; ec2/eh2 are the later reassignments guarded by COOL/HEAT mode). -/
def controlBasedOnMainThermostat (mode mainMode : HVACMode) (mainAction : HVACAction)
    (target targetLow targetHigh cur coldTol hotTol : ℚ)
    (deviceActive : Bool) : CtrlAction :=
  let sd1 : Prop := mode = HVACMode.cool ∧ mainMode = HVACMode.heat
  let sd2 : Prop := sd1 ∨ (mode = HVACMode.heat ∧ mainMode = HVACMode.cool)
  let ec1 : Prop :=
    (mode = HVACMode.auto ∨ mode = HVACMode.heatCool) ∧ mainMode = HVACMode.cool ∧
      targetLow ≥ cur + coldTol
  let eh1 : Prop :=
    (mode = HVACMode.auto ∨ mode = HVACMode.heatCool) ∧ mainMode = HVACMode.heat ∧
      targetHigh ≤ cur - hotTol
  let sd3 : Prop :=
    if mode = HVACMode.auto ∨ mode = HVACMode.heatCool then ec1 ∨ eh1 else sd2
  let ec2 : Prop :=
    if mode = HVACMode.cool ∧ mainAction = HVACAction.cooling then
      target ≥ cur + coldTol
    else ec1
  let eh2 : Prop :=
    if mode = HVACMode.heat ∧ (mainAction = HVACAction.heating ∨ mainAction = HVACAction.preheating) then
      target ≤ cur - hotTol
    else eh1
  let shouldDeactivate : Prop := sd3 ∨ ec2 ∨ eh2
  if shouldDeactivate ∧ deviceActive = true then CtrlAction.turnOff
  else if ¬shouldDeactivate ∧ deviceActive = false then CtrlAction.turnOn
  else CtrlAction.noCmd

/-! ## Entity state and operations -/

/-- The configuration fields of DamperThermostat read by the modelled
operations (set in __init__ and never reassigned). -/
structure Config where
  tempSensors : List String
  own : String
  switches : List String
  maxOff : Nat
  mainThermostat : Option String
  coldTol : ℚ
  hotTol : ℚ
  targetLow : ℚ
  targetHigh : ℚ

/-- The mutable per-instance fields touched by the modelled operations. -/
structure ThermoState where
  hvacMode : HVACMode
  curTemp : Option ℚ
  curHumidity : Option ℤ
  targetTemp : Option ℚ
  active : Bool
  onByUs : Bool

/-- The control-variable initialisation at the end of __init__:
no cached readings yet, _active = False, _on_by_us = False. -/
def initState (mode : HVACMode) (targetTemp : Option ℚ) : ThermoState :=
  { hvacMode := mode
    curTemp := none
    curHumidity := none
    targetTemp := targetTemp
    active := false
    onByUs := false }

/-- The activation step at the top of _async_control_heating_cooling:
set _active once both the cached current temperature and the target are
known. -/
def activateIfReady (s : ThermoState) : ThermoState :=
  if !s.active && s.curTemp.isSome && s.targetTemp.isSome then
    { s with active := true }
  else s

/-- Realise one decision: _async_actuator_turn_on sets _on_by_us and
turns the own switch on; _async_actuator_turn_off runs the arbiter
(setting _on_by_us only on the paths that issue the own turn-off). -/
def dispatchCtrl (cfg : Config) (env : String → Option String) (onByUs : Bool) :
    CtrlAction → Bool × List Cmd
  | CtrlAction.turnOn => (true, [Cmd.turnOn cfg.own])
  | CtrlAction.turnOff =>
    let cmds := actuatorTurnOffCmds cfg.switches cfg.own cfg.maxOff env
    (if cmds.isEmpty then onByUs else true, cmds)
  | CtrlAction.noCmd => (onByUs, [])

/-- _async_control_heating_cooling: activate if ready, return early when
inactive or OFF, then control from the own hysteresis logic or from the
main thermostat state (read through climateEnv as the pair of its
hvac_mode / hvac_action attributes; a missing main entity is a logged
no-op). -/
def controlHeatingCooling (cfg : Config) (env : String → Option String)
    (climateEnv : String → Option (HVACMode × HVACAction)) (s : ThermoState) :
    ThermoState × List Cmd :=
  let s1 := activateIfReady s
  if !s1.active || s1.hvacMode = HVACMode.off then (s1, [])
  else
    match cfg.mainThermostat with
    | none =>
      match s1.curTemp, s1.targetTemp with
      | some cur, some target =>
        let a := controlBasedOnTemperature s1.hvacMode target cur cfg.coldTol cfg.hotTol
          (isDeviceActive env cfg.own)
        let r := dispatchCtrl cfg env s1.onByUs a
        ({ s1 with onByUs := r.1 }, r.2)
      | _, _ => (s1, [])
    | some mid =>
      match climateEnv mid with
      | none => (s1, [])
      | some (mMode, mAction) =>
        match s1.curTemp, s1.targetTemp with
        | some cur, some target =>
          let a := controlBasedOnMainThermostat s1.hvacMode mMode mAction target
            cfg.targetLow cfg.targetHigh cur cfg.coldTol cfg.hotTol
            (isDeviceActive env cfg.own)
          let r := dispatchCtrl cfg env s1.onByUs a
          ({ s1 with onByUs := r.1 }, r.2)
        | _, _ => (s1, [])

/-- async_set_hvac_mode: the four active modes store the mode and re-run
the control pass; OFF stores the mode and, when the actuator switch is
currently on, runs the arbiter turn-off; an unrecognized mode is a logged
no-op. -/
def setHvacMode (cfg : Config) (env : String → Option String)
    (climateEnv : String → Option (HVACMode × HVACAction)) (s : ThermoState)
    (mode : HVACMode) : ThermoState × List Cmd :=
  if mode = HVACMode.heat ∨ mode = HVACMode.cool ∨ mode = HVACMode.auto ∨
      mode = HVACMode.heatCool then
    controlHeatingCooling cfg env climateEnv { s with hvacMode := mode }
  else if mode = HVACMode.off then
    let s1 := { s with hvacMode := HVACMode.off }
    if isDeviceActive env cfg.own then
      let cmds := actuatorTurnOffCmds cfg.switches cfg.own cfg.maxOff env
      ({ s1 with onByUs := if cmds.isEmpty then s1.onByUs else true }, cmds)
    else (s1, [])
  else (s, [])

/-- async_set_temperature: a missing temperature argument is ignored;
otherwise the target is stored and the control pass re-run. -/
def setTemperature (cfg : Config) (env : String → Option String)
    (climateEnv : String → Option (HVACMode × HVACAction)) (s : ThermoState)
    (t : Option ℚ) : ThermoState × List Cmd :=
  match t with
  | none => (s, [])
  | some tv => controlHeatingCooling cfg env climateEnv { s with targetTemp := some tv }

/-- The temperature-sensor update as an operation on the entity state. -/
def updateTempOp (cfg : Config) (sensorEnv : String → Option StateVal)
    (s : ThermoState) : ThermoState :=
  { s with curTemp := updateTemp cfg.tempSensors sensorEnv s.curTemp }

/-- The humidity-sensor update as an operation on the entity state. -/
def updateHumidityOp (v : Option StateVal) (s : ThermoState) : ThermoState :=
  { s with curHumidity := updateHumidity v s.curHumidity }

/-- _async_actuator_turn_on as an operation on the entity state. -/
def actuatorTurnOnOp (cfg : Config) (s : ThermoState) : ThermoState × List Cmd :=
  ({ s with onByUs := true }, [Cmd.turnOn cfg.own])

/-- _async_actuator_turn_off as an operation on the entity state. -/
def actuatorTurnOffOp (cfg : Config) (env : String → Option String)
    (s : ThermoState) : ThermoState × List Cmd :=
  let cmds := actuatorTurnOffCmds cfg.switches cfg.own cfg.maxOff env
  ({ s with onByUs := if cmds.isEmpty then s.onByUs else true }, cmds)

/-! ## Helper lemmas for the group arbiter -/

lemma indexIn_mem {x : String} {l : List String} {i : ℕ}
    (h : indexIn x l = some i) : x ∈ l := by
  induction l generalizing i with
  | nil => simp [indexIn] at h
  | cons y ys ih =>
    by_cases hy : y = x
    · exact hy ▸ List.mem_cons_self y ys
    · have h2 : (indexIn x ys).map (· + 1) = some i := by
        simpa [indexIn, hy] using h
      cases hys : indexIn x ys with
      | none => rw [hys] at h2; simp at h2
      | some j => exact List.mem_cons_of_mem _ (ih hys)

lemma isOff_turnOff_ne {env : String → Option String} {own x : String}
    (h : x ≠ own) : isOff (applyCmd env (Cmd.turnOff own)) x = isOff env x := by
  simp [isOff, statusOf, applyCmd, h]

lemma isOff_turnOff_self (env : String → Option String) (own : String) :
    isOff (applyCmd env (Cmd.turnOff own)) own = true := by
  simp [isOff, statusOf, applyCmd]

lemma isOff_handoff_ne {env : String → Option String} {own j x : String}
    (hxj : x ≠ j) (hxo : x ≠ own) :
    isOff (applyCmd (applyCmd env (Cmd.turnOn j)) (Cmd.turnOff own)) x = isOff env x := by
  simp [isOff, statusOf, applyCmd, hxj, hxo]

lemma isOff_handoff_own (env : String → Option String) (own j : String) :
    isOff (applyCmd (applyCmd env (Cmd.turnOn j)) (Cmd.turnOff own)) own = true := by
  simp [isOff, statusOf, applyCmd]

lemma isOff_handoff_lower {env : String → Option String} {own j : String}
    (hje : j ≠ own) :
    isOff (applyCmd (applyCmd env (Cmd.turnOn j)) (Cmd.turnOff own)) j = false := by
  simp [isOff, statusOf, applyCmd, hje, stOn, stOff]

/-- A direct turn-off raises the off-count of a duplicate-free group by at
most one. -/
lemma offCount_turnOff_le (switches : List String) (hnd : switches.Nodup)
    (env : String → Option String) (own : String) :
    offCount switches (applyCmd env (Cmd.turnOff own)) ≤ offCount switches env + 1 := by
  by_cases hm : own ∈ switches
  · have hp := List.perm_cons_erase hm
    rw [offCount, offCount, List.Perm.countP_eq _ hp, List.Perm.countP_eq _ hp,
      List.countP_cons, List.countP_cons]
    have hcongr : List.countP (isOff (applyCmd env (Cmd.turnOff own))) (switches.erase own)
        = List.countP (isOff env) (switches.erase own) := by
      refine List.countP_congr fun x hx => ?_
      rw [isOff_turnOff_ne (hnd.mem_erase_iff.mp hx).1]
    rw [hcongr, isOff_turnOff_self]
    split_ifs <;> omega
  · have hcongr : List.countP (isOff (applyCmd env (Cmd.turnOff own))) switches
        = List.countP (isOff env) switches := by
      refine List.countP_congr fun x hx => ?_
      have hxo : x ≠ own := by
        intro he
        rw [he] at hx
        exact hm hx
      rw [isOff_turnOff_ne hxo]
    rw [offCount, offCount, hcongr]
    omega

/-- A handoff (turn a currently-off member on, then turn the requester
off) never raises the off-count of a duplicate-free group. -/
lemma offCount_handoff_le (switches : List String) (hnd : switches.Nodup)
    (env : String → Option String) (own j : String)
    (hown : own ∈ switches) (hj : j ∈ switches) (hoff : isOff env j = true) :
    offCount switches (applyCmd (applyCmd env (Cmd.turnOn j)) (Cmd.turnOff own))
      ≤ offCount switches env := by
  by_cases hje : j = own
  · subst hje
    have hsame : ∀ x ∈ switches,
        isOff (applyCmd (applyCmd env (Cmd.turnOn j)) (Cmd.turnOff j)) x = isOff env x := by
      intro x hx
      by_cases hxj : x = j
      · subst hxj
        rw [isOff_handoff_own, hoff]
      · exact isOff_handoff_ne hxj hxj
    rw [offCount, offCount, List.countP_congr fun x hx => by rw [hsame x hx]]
  · have hp1 := List.perm_cons_erase hown
    have hj1 : j ∈ switches.erase own := hnd.mem_erase_iff.mpr ⟨hje, hj⟩
    have hp2 := List.perm_cons_erase hj1
    have hp : switches.Perm (own :: j :: (switches.erase own).erase j) :=
      hp1.trans (List.Perm.cons own hp2)
    have her1 : (switches.erase own).Nodup := hnd.erase own
    rw [offCount, offCount, List.Perm.countP_eq _ hp, List.Perm.countP_eq _ hp,
      List.countP_cons, List.countP_cons, List.countP_cons, List.countP_cons]
    have hrest : List.countP
        (isOff (applyCmd (applyCmd env (Cmd.turnOn j)) (Cmd.turnOff own)))
        ((switches.erase own).erase j)
        = List.countP (isOff env) ((switches.erase own).erase j) := by
      refine List.countP_congr fun x hx => ?_
      have hxj : x ≠ j := (her1.mem_erase_iff.mp hx).1
      have hxo : x ≠ own := (hnd.mem_erase_iff.mp (her1.mem_erase_iff.mp hx).2).1
      rw [isOff_handoff_ne hxj hxo]
    rw [hrest, isOff_handoff_own, isOff_handoff_lower hje, hoff]
    have e0 : (if (false : Bool) = true then 1 else 0) = 0 := rfl
    have e1 : (if (true : Bool) = true then 1 else 0) = 1 := rfl
    rw [e0, e1]
    split_ifs <;> omega

/-- One arbiter-executed turn-off request preserves the group ceiling. -/
lemma turnOffStep_offCount_le (switches : List String) (maxOff : Nat)
    (env : String → Option String) (own : String)
    (hnd : switches.Nodup) (h0 : offCount switches env ≤ maxOff) :
    offCount switches (turnOffStep switches maxOff env own) ≤ maxOff := by
  unfold turnOffStep actuatorTurnOffCmds
  by_cases hlt : offCount switches env < maxOff
  · rw [if_pos hlt]
    exact le_trans (offCount_turnOff_le switches hnd env own) (by omega)
  · rw [if_neg hlt]
    cases hidx : indexIn own switches with
    | none =>
      dsimp only
      exact h0
    | some i =>
      dsimp only
      cases hfind : (switches.drop (i + 1)).find? (isOff env) with
      | none =>
        dsimp only
        exact h0
      | some j =>
        dsimp only
        have hjmem : j ∈ switches :=
          List.mem_of_mem_drop (List.mem_of_find?_eq_some hfind)
        have hoff : isOff env j = true := List.find?_some hfind
        have hown : own ∈ switches := indexIn_mem hidx
        exact le_trans
          (offCount_handoff_le switches hnd env own j hown hjmem hoff) h0

/-! ## Concrete entities used by witnesses -/

def swA : String := "switch.a"

def swB : String := "switch.b"

def swC : String := "switch.c"

/-- All group members on. -/
def envAllOn : String → Option String := fun _ => some stOn

/-- Member B off, everything else on. -/
def envW1 : String → Option String := fun sid =>
  if sid = swB then some stOff else some stOn

/-- Member A off, everything else on. -/
def envW4 : String → Option String := fun sid =>
  if sid = swA then some stOff else some stOn

/-! ## Claims -/

/-- Claim C1: for every sequence of plugin-issued turn-off requests
against a (duplicate-free) actuator group with ceiling maxOff, starting
from a state in which at most maxOff members are off, the number of
members off never exceeds maxOff: a direct turn-off is issued only
strictly below the ceiling, and a handoff turns an off member on before
turning the requester off. -/
theorem claim_C1_group_ceiling_invariant (switches : List String) (maxOff : Nat)
    (env : String → Option String) (reqs : List String)
    (hnd : switches.Nodup) (h0 : offCount switches env ≤ maxOff) :
    offCount switches (runTurnOffRequests switches maxOff env reqs) ≤ maxOff := by
  induction reqs generalizing env with
  | nil => exact h0
  | cons r rs ih =>
    exact ih (turnOffStep switches maxOff env r)
      (turnOffStep_offCount_le switches maxOff env r hnd h0)

/-- Witness for C1: group of three all-on members with ceiling 1; the
request sequence turns A off directly and then refuses B; the final
off-count stays at most 1. -/
theorem claim_C1_witness :
    offCount [swA, swB, swC] (runTurnOffRequests [swA, swB, swC] 1 envAllOn [swA, swB]) ≤ 1 :=
  claim_C1_group_ceiling_invariant [swA, swB, swC] 1 envAllOn [swA, swB]
    (by decide) (by decide)

/-- Claim C3: when a turn-off is requested at priority index i while the
off-count is at or above the ceiling and the scan from index i+1 upward
finds an off member, the arbiter issues exactly the commands: that member
ON first, then the requester OFF. -/
theorem claim_C3_handoff_commands (switches : List String) (own : String)
    (maxOff : Nat) (env : String → Option String) (i : ℕ) (lower : String)
    (hceil : ¬ offCount switches env < maxOff)
    (hidx : indexIn own switches = some i)
    (hfind : (switches.drop (i + 1)).find? (isOff env) = some lower) :
    actuatorTurnOffCmds switches own maxOff env
      = [Cmd.turnOn lower, Cmd.turnOff own] := by
  unfold actuatorTurnOffCmds
  rw [if_neg hceil, hidx]
  dsimp only
  rw [hfind]

/-- Witness for C3: ceiling 1, member B already off, requester A at index
0; the arbiter turns B on and then A off, in that order. -/
theorem claim_C3_witness :
    actuatorTurnOffCmds [swA, swB, swC] swA 1 envW1
      = [Cmd.turnOn swB, Cmd.turnOff swA] :=
  claim_C3_handoff_commands [swA, swB, swC] swA 1 envW1 0 swB
    (by decide) (by decide) (by decide)

/-- Claim C4: when a turn-off is requested at the ceiling and no member
after the requester's index is off, the arbiter issues no commands and
the switch states are unchanged (the function returns normally; in the
source this path only logs). -/
theorem claim_C4_refusal_no_commands (switches : List String) (own : String)
    (maxOff : Nat) (env : String → Option String) (i : ℕ)
    (hceil : ¬ offCount switches env < maxOff)
    (hidx : indexIn own switches = some i)
    (hnone : (switches.drop (i + 1)).find? (isOff env) = none) :
    actuatorTurnOffCmds switches own maxOff env = [] ∧
      applyCmds env (actuatorTurnOffCmds switches own maxOff env) = env := by
  have hc : actuatorTurnOffCmds switches own maxOff env = [] := by
    unfold actuatorTurnOffCmds
    rw [if_neg hceil, hidx]
    dsimp only
    rw [hnone]
  exact ⟨hc, by rw [hc]; rfl⟩

/-- Witness for C4: ceiling 1, member A off, requester B is last in the
priority list; the arbiter refuses, issuing no commands. -/
theorem claim_C4_witness :
    actuatorTurnOffCmds [swA, swB] swB 1 envW4 = [] ∧
      applyCmds envW4 (actuatorTurnOffCmds [swA, swB] swB 1 envW4) = envW4 :=
  claim_C4_refusal_no_commands [swA, swB] swB 1 envW4 1
    (by decide) (by decide) (by decide)

/-- Counterexample to C2 as stated: in HEAT mode with no upstream, with
current = target = 70 and tolerances 1/2, the device is inside the claimed
hysteresis band (70 < 70 + 1/2), yet the code commands the ON actuator
OFF, because the source turns the heater off whenever not too_cold rather
than at current ≥ target + hot_tolerance. -/
theorem claim_C2_counterexample :
    controlBasedOnTemperature HVACMode.heat 70 70 (1/2) (1/2) true = CtrlAction.turnOff
      ∧ ¬ ((70 : ℚ) ≥ 70 + 1/2) := by
  constructor
  · norm_num [controlBasedOnTemperature]
  · norm_num

/-- Amended C2: in HEAT mode with no upstream, the actuator is commanded
ON iff current ≤ target − cold_tolerance given it was OFF (as claimed),
but it is commanded OFF iff current > target − cold_tolerance given it
was ON: the turn-off condition is the negation of the turn-on condition,
hot_tolerance is not consulted, and there is no non-re-entrant band. -/
theorem claim_C2_amended_heat_no_upstream (target cur coldTol hotTol : ℚ) :
    (controlBasedOnTemperature HVACMode.heat target cur coldTol hotTol false
        = CtrlAction.turnOn ↔ cur ≤ target - coldTol)
    ∧ (controlBasedOnTemperature HVACMode.heat target cur coldTol hotTol true
        = CtrlAction.turnOff ↔ target - coldTol < cur) := by
  have e1 : (cur ≤ target - coldTol) ↔ (target ≥ cur + coldTol) := by
    constructor <;> intro h <;> linarith
  have e2 : (target - coldTol < cur) ↔ ¬ (target ≥ cur + coldTol) := by
    rw [ge_iff_le, not_le]
    constructor <;> intro h <;> linarith
  rw [e1, e2]
  unfold controlBasedOnTemperature
  by_cases h : target ≥ cur + coldTol <;> simp [h]

/-- Counterexample to C5 as stated: in HEAT mode with an upstream
thermostat whose action is idle (neither heating nor preheating), the
code still commands the OFF actuator ON (current 60, target 70), because
should_deactivate is false whenever the upstream mode is not cool and the
enough_heat condition does not hold. -/
theorem claim_C5_counterexample :
    controlBasedOnMainThermostat HVACMode.heat HVACMode.heat HVACAction.idle
        70 65 75 60 (1/2) (1/2) false = CtrlAction.turnOn
      ∧ HVACAction.idle ≠ HVACAction.heating
      ∧ HVACAction.idle ≠ HVACAction.preheating := by
  refine ⟨?_, by decide, by decide⟩
  simp [controlBasedOnMainThermostat]

/-- Amended C5: in HEAT mode with an upstream thermostat, the control
pass commands the OFF actuator ON iff the upstream mode is not cool and
it is not the case that (the upstream action is heating or preheating and
current ≥ target + hot_tolerance): an idle upstream does not block
turn-on, and cold_tolerance is not consulted. -/
theorem claim_C5_amended_heat_with_upstream (mainMode : HVACMode)
    (mainAction : HVACAction) (target targetLow targetHigh cur coldTol hotTol : ℚ)
    (dev : Bool) :
    controlBasedOnMainThermostat HVACMode.heat mainMode mainAction target targetLow
        targetHigh cur coldTol hotTol dev = CtrlAction.turnOn
      ↔ (dev = false ∧ mainMode ≠ HVACMode.cool ∧
          ¬ ((mainAction = HVACAction.heating ∨ mainAction = HVACAction.preheating)
              ∧ target ≤ cur - hotTol)) := by
  unfold controlBasedOnMainThermostat
  by_cases hmm : mainMode = HVACMode.cool <;>
    by_cases hact : mainAction = HVACAction.heating ∨ mainAction = HVACAction.preheating <;>
    by_cases htemp : target ≤ cur - hotTol <;>
    cases dev <;>
    simp [hmm, hact, htemp]

/-- Counterexample to C8 as stated: in AUTO mode with the upstream in
cool mode, at current 70 with band (65, 75) and tolerances 1, the claimed
high-setpoint condition current ≥ target_high − tolerance fails
(70 < 74), yet the code commands the OFF actuator ON, because the source
compares the cool case against the low setpoint (enough_cold is
target_low ≥ current + cold_tolerance). -/
theorem claim_C8_counterexample :
    controlBasedOnMainThermostat HVACMode.auto HVACMode.cool HVACAction.idle
        70 65 75 70 1 1 false = CtrlAction.turnOn
      ∧ ¬ ((70 : ℚ) ≥ 75 - 1) := by
  constructor
  · norm_num [controlBasedOnMainThermostat]
  · norm_num

/-- Amended C8: in AUTO or HEAT_COOL mode with an upstream thermostat,
the pairing is the reverse of the claim: when the upstream mode is cool
the deactivation condition is evaluated against the LOW setpoint
(deactivate iff current ≤ target_low − cold_tolerance), and when the
upstream mode is heat against the HIGH setpoint (deactivate iff
current ≥ target_high + hot_tolerance). -/
theorem claim_C8_amended_band_setpoints (mode : HVACMode) (mainAction : HVACAction)
    (target targetLow targetHigh cur coldTol hotTol : ℚ) (dev : Bool)
    (hm : mode = HVACMode.auto ∨ mode = HVACMode.heatCool) :
    (controlBasedOnMainThermostat mode HVACMode.cool mainAction target targetLow
        targetHigh cur coldTol hotTol dev = CtrlAction.turnOff
      ↔ dev = true ∧ cur ≤ targetLow - coldTol)
    ∧ (controlBasedOnMainThermostat mode HVACMode.cool mainAction target targetLow
        targetHigh cur coldTol hotTol dev = CtrlAction.turnOn
      ↔ dev = false ∧ targetLow - coldTol < cur)
    ∧ (controlBasedOnMainThermostat mode HVACMode.heat mainAction target targetLow
        targetHigh cur coldTol hotTol dev = CtrlAction.turnOff
      ↔ dev = true ∧ targetHigh + hotTol ≤ cur)
    ∧ (controlBasedOnMainThermostat mode HVACMode.heat mainAction target targetLow
        targetHigh cur coldTol hotTol dev = CtrlAction.turnOn
      ↔ dev = false ∧ cur < targetHigh + hotTol) := by
  have e1 : (cur ≤ targetLow - coldTol) ↔ (targetLow ≥ cur + coldTol) := by
    constructor <;> intro h <;> linarith
  have e2 : (targetLow - coldTol < cur) ↔ ¬ (targetLow ≥ cur + coldTol) := by
    rw [ge_iff_le, not_le]
    constructor <;> intro h <;> linarith
  have e3 : (targetHigh + hotTol ≤ cur) ↔ (targetHigh ≤ cur - hotTol) := by
    constructor <;> intro h <;> linarith
  have e4 : (cur < targetHigh + hotTol) ↔ ¬ (targetHigh ≤ cur - hotTol) := by
    rw [not_le]
    constructor <;> intro h <;> linarith
  rw [e1, e2, e3, e4]
  rcases hm with rfl | rfl <;>
  · unfold controlBasedOnMainThermostat
    by_cases h1 : targetLow ≥ cur + coldTol <;>
      by_cases h2 : targetHigh ≤ cur - hotTol <;>
      cases dev <;>
      simp [h1, h2]

/-- Witness for the amended C8: AUTO mode, upstream cooling, current 63
below target_low − cold_tolerance = 64, device on: the code commands it
OFF (low-setpoint pairing). -/
theorem claim_C8_witness :
    controlBasedOnMainThermostat HVACMode.auto HVACMode.cool HVACAction.idle
        70 65 75 63 1 1 true = CtrlAction.turnOff := by
  have h := (claim_C8_amended_band_setpoints HVACMode.auto HVACAction.idle
    70 65 75 63 1 1 true (Or.inl rfl)).1
  exact h.mpr ⟨rfl, by norm_num⟩

/-! ## Entity-state helper lemmas and fixtures -/

lemma activateIfReady_active (s : ThermoState) :
    (activateIfReady s).active = (s.active || (s.curTemp.isSome && s.targetTemp.isSome)) := by
  unfold activateIfReady
  cases h : s.active
  · cases h1 : s.curTemp.isSome <;> cases h2 : s.targetTemp.isSome <;> simp [h, h1, h2]
  · simp [h]

lemma controlHeatingCooling_active (cfg : Config) (env : String → Option String)
    (climateEnv : String → Option (HVACMode × HVACAction)) (s : ThermoState) :
    (controlHeatingCooling cfg env climateEnv s).1.active = (activateIfReady s).active := by
  simp only [controlHeatingCooling]
  split
  · rfl
  · split
    · split <;> rfl
    · split
      · rfl
      · split <;> rfl

def tsA : String := "sensor.t1"

def tsB : String := "sensor.t2"

def tsC : String := "sensor.t3"

/-- Two numeric sensors (68 and 70), one unavailable, anything else missing. -/
def sensorEnvW : String → Option StateVal := fun sid =>
  if sid = tsA then some (StateVal.num 68)
  else if sid = tsB then some (StateVal.num 70)
  else if sid = tsC then some StateVal.unavailable
  else none

def cfgW : Config :=
  { tempSensors := [tsA, tsB, tsC]
    own := swB
    switches := [swA, swB]
    maxOff := 1
    mainThermostat := none
    coldTol := 1
    hotTol := 1
    targetLow := 72
    targetHigh := 76 }

/-- An already-active state whose temperatures would scream for heat. -/
def stW : ThermoState :=
  { hvacMode := HVACMode.heat
    curTemp := some 50
    curHumidity := none
    targetTemp := some 90
    active := true
    onByUs := false }

def climateEnvNone : String → Option (HVACMode × HVACAction) := fun _ => none

/-- Counterexample to C6 as stated: group [A, B] with ceiling 1 and A
already off; setting OFF mode while actuator B is on issues no turn-off
service command at all, because the arbiter refuses (no member after B in
priority order is off), even though the device is on. -/
theorem claim_C6_counterexample :
    isDeviceActive envW4 cfgW.own = true
    ∧ (setHvacMode cfgW envW4 climateEnvNone stW HVACMode.off).2 = [] := by
  constructor
  · decide
  · decide

/-- Amended C6: setting OFF mode while the actuator is on always invokes
the arbiter turn-off, regardless of the current and target temperatures
(the state s is arbitrary); a turn-off service command for the actuator
is actually issued whenever the group off-count is below the ceiling
(and in general exactly when the arbiter does not refuse). -/
theorem claim_C6_amended_off_mode (cfg : Config) (env : String → Option String)
    (climateEnv : String → Option (HVACMode × HVACAction)) (s : ThermoState)
    (hOn : isDeviceActive env cfg.own = true) :
    (setHvacMode cfg env climateEnv s HVACMode.off).2
      = actuatorTurnOffCmds cfg.switches cfg.own cfg.maxOff env
    ∧ (offCount cfg.switches env < cfg.maxOff →
        (setHvacMode cfg env climateEnv s HVACMode.off).2 = [Cmd.turnOff cfg.own]) := by
  have hmain : (setHvacMode cfg env climateEnv s HVACMode.off).2
      = actuatorTurnOffCmds cfg.switches cfg.own cfg.maxOff env := by
    unfold setHvacMode
    simp [hOn]
  refine ⟨hmain, fun hlt => ?_⟩
  rw [hmain]
  unfold actuatorTurnOffCmds
  rw [if_pos hlt]

/-- Witness for the amended C6: all members on (off-count 0, below the
ceiling), device on; OFF mode issues exactly the turn-off for B. -/
theorem claim_C6_witness :
    (setHvacMode cfgW envAllOn climateEnvNone stW HVACMode.off).2 = [Cmd.turnOff swB] :=
  (claim_C6_amended_off_mode cfgW envAllOn climateEnvNone stW (by decide)).2 (by decide)

/-- Claim C7: the temperature aggregator stores the arithmetic mean of
exactly the sensors whose states are present and numeric (skipping
missing, unknown/unavailable and malformed readings), and leaves the
cached value unchanged when no sensor yields a valid reading. -/
theorem claim_C7_temperature_mean (sensors : List String)
    (env : String → Option StateVal) (old : Option ℚ) :
    (validTemps sensors env = [] → updateTemp sensors env old = old)
    ∧ (validTemps sensors env ≠ [] →
        updateTemp sensors env old
          = some ((validTemps sensors env).sum / ((validTemps sensors env).length : ℚ)))
    ∧ validTemps sensors env
        = (sensors.filter fun sid =>
            match env sid with
            | some (StateVal.num _) => true
            | _ => false).map fun sid =>
            match env sid with
            | some (StateVal.num q) => q
            | _ => 0 := by
  refine ⟨?_, ?_, ?_⟩
  · intro h
    simp [updateTemp, h]
  · intro h
    simp [updateTemp, List.isEmpty_iff, h]
  · induction sensors with
    | nil => rfl
    | cons sid rest ih =>
      cases hv : env sid with
      | none => simpa [validTemps, List.filterMap_cons, List.filter_cons, hv] using ih
      | some v =>
        cases v with
        | unknown => simpa [validTemps, List.filterMap_cons, List.filter_cons, hv] using ih
        | unavailable => simpa [validTemps, List.filterMap_cons, List.filter_cons, hv] using ih
        | malformed => simpa [validTemps, List.filterMap_cons, List.filter_cons, hv] using ih
        | num q => simpa [validTemps, List.filterMap_cons, List.filter_cons, hv] using ih

/-- Witness for C7: sensors reading 68 and 70 with a third unavailable
aggregate to the mean 69; applies the claim theorem at that input. -/
theorem claim_C7_witness :
    updateTemp [tsA, tsB, tsC] sensorEnvW none = some 69 := by
  have hv : validTemps [tsA, tsB, tsC] sensorEnvW = [68, 70] := by decide
  have h2 := (claim_C7_temperature_mean [tsA, tsB, tsC] sensorEnvW none).2.1
    (by rw [hv]; simp)
  rw [hv] at h2
  simp only [List.sum_cons, List.sum_nil, List.length_cons, List.length_nil] at h2
  norm_num at h2
  exact h2

/-- Claim C9: the active flag starts false, a control pass sets it true
exactly when both the cached current temperature and the target are
non-None (otherwise it keeps its old value), and no modelled operation
(sensor update, humidity update, actuator command, mode set, temperature
set) ever resets it to false. -/
theorem claim_C9_active_flag_monotone :
    (∀ (m : HVACMode) (t : Option ℚ), (initState m t).active = false)
    ∧ (∀ (cfg : Config) (env : String → Option String)
        (climateEnv : String → Option (HVACMode × HVACAction)) (s : ThermoState),
        (controlHeatingCooling cfg env climateEnv s).1.active
          = (s.active || (s.curTemp.isSome && s.targetTemp.isSome)))
    ∧ (∀ (cfg : Config) (sensorEnv : String → Option StateVal) (s : ThermoState),
        (updateTempOp cfg sensorEnv s).active = s.active)
    ∧ (∀ (v : Option StateVal) (s : ThermoState),
        (updateHumidityOp v s).active = s.active)
    ∧ (∀ (cfg : Config) (s : ThermoState),
        (actuatorTurnOnOp cfg s).1.active = s.active)
    ∧ (∀ (cfg : Config) (env : String → Option String) (s : ThermoState),
        (actuatorTurnOffOp cfg env s).1.active = s.active)
    ∧ (∀ (cfg : Config) (env : String → Option String)
        (climateEnv : String → Option (HVACMode × HVACAction)) (s : ThermoState)
        (mode : HVACMode), s.active = true →
        (setHvacMode cfg env climateEnv s mode).1.active = true)
    ∧ (∀ (cfg : Config) (env : String → Option String)
        (climateEnv : String → Option (HVACMode × HVACAction)) (s : ThermoState)
        (t : Option ℚ), s.active = true →
        (setTemperature cfg env climateEnv s t).1.active = true) := by
  have hctrl : ∀ (cfg : Config) (env : String → Option String)
      (climateEnv : String → Option (HVACMode × HVACAction)) (s : ThermoState),
      (controlHeatingCooling cfg env climateEnv s).1.active
        = (s.active || (s.curTemp.isSome && s.targetTemp.isSome)) :=
    fun cfg env cenv s =>
      (controlHeatingCooling_active cfg env cenv s).trans (activateIfReady_active s)
  refine ⟨fun m t => rfl, hctrl, fun _ _ _ => rfl, fun _ _ => rfl, fun _ _ => rfl,
    fun _ _ _ => rfl, ?_, ?_⟩
  · intro cfg env cenv s mode hs
    by_cases h4 : mode = HVACMode.heat ∨ mode = HVACMode.cool ∨ mode = HVACMode.auto ∨
        mode = HVACMode.heatCool
    · unfold setHvacMode
      rw [if_pos h4, hctrl]
      simp [hs]
    · by_cases hoff : mode = HVACMode.off
      · unfold setHvacMode
        rw [if_neg h4, if_pos hoff]
        split <;> simp [hs]
      · unfold setHvacMode
        rw [if_neg h4, if_neg hoff]
        exact hs
  · intro cfg env cenv s t hs
    cases t with
    | none => exact hs
    | some tv =>
      show (controlHeatingCooling cfg env cenv { s with targetTemp := some tv }).1.active = true
      rw [hctrl]
      simp [hs]

/-- Witness for C9: applies the mode-set and temperature-set monotonicity
conjuncts at a concrete active state. -/
theorem claim_C9_witness :
    (setHvacMode cfgW envAllOn climateEnvNone stW HVACMode.off).1.active = true
    ∧ (setTemperature cfgW envAllOn climateEnvNone stW (some 70)).1.active = true :=
  ⟨claim_C9_active_flag_monotone.2.2.2.2.2.2.1 cfgW envAllOn climateEnvNone stW
      HVACMode.off rfl,
    claim_C9_active_flag_monotone.2.2.2.2.2.2.2 cfgW envAllOn climateEnvNone stW
      (some 70) rfl⟩

/-- Claim C10: a valid numeric humidity reading is stored as
int(float(value)) with the fractional part truncated (for non-negative
readings this is the floor, an integer within 1 below the reading),
while missing, unknown/unavailable or malformed readings leave the
cached humidity unchanged. -/
theorem claim_C10_humidity_truncation (q : ℚ) (old : Option ℤ) :
    updateHumidity (some (StateVal.num q)) old = some (ratTrunc q)
    ∧ (0 ≤ q → ratTrunc q = ⌊q⌋ ∧ ((ratTrunc q : ℚ) ≤ q ∧ q - 1 < (ratTrunc q : ℚ)))
    ∧ updateHumidity none old = old
    ∧ updateHumidity (some StateVal.unknown) old = old
    ∧ updateHumidity (some StateVal.unavailable) old = old
    ∧ updateHumidity (some StateVal.malformed) old = old := by
  refine ⟨rfl, ?_, rfl, rfl, rfl, rfl⟩
  intro hq
  have ht : ratTrunc q = ⌊q⌋ := by
    unfold ratTrunc
    rw [if_pos hq]
  refine ⟨ht, ?_, ?_⟩
  · rw [ht]
    exact_mod_cast Int.floor_le q
  · rw [ht]
    have := Int.lt_floor_add_one q
    linarith

/-- Witness for C10: reading 55.5 is cached as its truncation (the floor,
55, since the reading is non-negative). -/
theorem claim_C10_witness :
    updateHumidity (some (StateVal.num (111/2))) none = some (ratTrunc (111/2))
    ∧ ratTrunc (111/2 : ℚ) = ⌊(111/2 : ℚ)⌋ :=
  ⟨(claim_C10_humidity_truncation (111/2) none).1,
    ((claim_C10_humidity_truncation (111/2) none).2.1 (by norm_num)).1⟩

end DamperThermostat
